import Mathlib

/-!
Shallow embedding of the rustyshim SciDB client shim
(`src/src/client.cpp`, `src/src/client.h`, `src/include/client.h`).

Modelling conventions:
* C pointers are natural numbers; `0` is the NULL pointer.
* The wrapped SciDB client library is opaque: each library call site is
  given an oracle describing the outcome of that call (normal return with
  a value, or a thrown exception carrying a `what()` message).
* The caller-supplied `err` buffer is `Option (List Char)`: `none` means
  the shim never wrote to it, `some s` means the NUL-terminated string `s`
  was stored by `snprintf(err, MAX_VARLEN, ...)`.
* Deallocations (`delete q`) performed by a shim function are recorded as
  the list of freed pointers, in order.
* A function whose C behaviour is undefined on some input (a NULL-pointer
  dereference) returns `none` on that input.
-/

namespace Shim

/-- C pointers, `0` is NULL. -/
abbrev Ptr := Nat

/-- The NULL pointer. -/
def NULL : Ptr := 0

/-- `#define MAX_VARLEN 4096` (client.cpp line 29). -/
def MAX_VARLEN : Nat := 4096

/-! Status-code table from `src/src/client.h` (identical values for the
shared names in `src/include/client.h`). -/

def SHIM_CONNECTION_SUCCESSFUL : Int := 0

def SHIM_ERROR_CANT_CONNECT : Int := -1

def SHIM_ERROR_AUTHENTICATION : Int := -2

def SHIM_PREPARATION_SUCCESS : Int := 0

def SHIM_NO_QUERY_RESULT_OBJ : Int := -1

def SHIM_PREPARATION_ERROR : Int := -2

def SHIM_EXECUTION_SUCCESS : Int := 0

def SHIM_TRANSACTION_ROLLBACK : Int := -3

def SHIM_EXECUTION_ERROR : Int := -4

def SHIM_COMPLETION_SUCCESS : Int := 0

def SHIM_COMPLETION_INVALID : Int := -5

def SHIM_COMPLETION_ERROR : Int := -6

def SHIM_NO_SCIDB_CONNECTION : Int := -7

def SHIM_IO_ERROR : Int := -8

/-- Library constant `scidb::SCIDB_LE_AUTHENTICATION_ERROR`.  The shim only
compares long error codes for equality with it, so its concrete value is
immaterial; we fix an arbitrary one. -/
def SCIDB_LE_AUTHENTICATION_ERROR : Nat := 1008

/-- `snprintf(err, MAX_VARLEN, "%s", s)`: the string stored in the `err`
buffer, truncated to at most `MAX_VARLEN - 1` characters so that the
terminating NUL also fits in the buffer. -/
def snprintfErr (s : List Char) : List Char := s.take (MAX_VARLEN - 1)

/-- `scidb::QueryID` as seen through the shim: `getId()` and
`getCoordinatorId()`. -/
structure LibQueryID where
  coordId : Nat
  id : Nat
deriving DecidableEq, Repr

/-- `ShimQueryID` from `src/include/client.h` (a.k.a. `struct QueryID` in
`src/src/client.h`): two unsigned long long fields. -/
structure ShimQueryID where
  coordinatorid : Nat
  queryid : Nat
deriving DecidableEq, Repr

/-- `struct prep` / `ShimPreppedQuery`: a `ShimQueryID` plus the opaque
`void *queryresult` pointer. -/
structure Prep where
  queryid : ShimQueryID
  queryresult : Ptr
deriving DecidableEq, Repr

/-! ### scidbconnect -/

/-- Outcome of the library calls made inside `scidbconnect`'s try block
(`db.connect(props, host, port)` together with the `SessionProperties`
setup): a normal return with a connection pointer, a thrown
`scidb::Exception` with its long error code, or another thrown
`std::exception`. -/
inductive ConnectOutcome where
  | ok (conn : Ptr)
  | scidbExc (longErrorCode : Nat) (msg : List Char)
  | stdExc (msg : List Char)
deriving DecidableEq, Repr

/-- `scidbconnect` (client.cpp lines 48-100): returns the connection
pointer and the value stored in `*status`. -/
def scidbconnect (res : ConnectOutcome) : Ptr × Int :=
  match res with
  | .ok c => (c, SHIM_CONNECTION_SUCCESSFUL)
  | .scidbExc code _ =>
      if code = SCIDB_LE_AUTHENTICATION_ERROR then
        (NULL, SHIM_ERROR_AUTHENTICATION)
      else
        (NULL, SHIM_ERROR_CANT_CONNECT)
  | .stdExc _ => (NULL, SHIM_ERROR_CANT_CONNECT)

/-! ### scidbdisconnect -/

/-- Outcome of `db.disconnect(con)`. -/
inductive DisconnectOutcome where
  | ok
  | stdExc (msg : List Char)
deriving DecidableEq, Repr

/-- Observable result of `scidbdisconnect`: whether it returned normally
(rather than letting an exception propagate), and what it reported through
any output channel (it has none). -/
structure DisconnectResult where
  returnedNormally : Bool
  reported : Option (List Char)
deriving DecidableEq, Repr

/-- `scidbdisconnect` (client.cpp lines 106-114): calls `db.disconnect`
inside a try block whose `catch(std::exception&)` handler is empty. -/
def scidbdisconnect (res : DisconnectOutcome) : DisconnectResult :=
  match res with
  | .ok => { returnedNormally := true, reported := none }
  | .stdExc _ => { returnedNormally := true, reported := none }

/-! ### executeQuery -/

/-- One call into the library's query lifecycle interface
(`scidb::SciDBClient`), recording the arguments the shim passes. -/
inductive LibCall where
  | prepareQuery (query : List Char) (afl : Bool) (con : Ptr)
  | executeQuery (query : List Char) (afl : Bool) (con : Ptr)
  | completeQuery (qid : LibQueryID) (con : Ptr)
deriving DecidableEq, Repr

/-- Oracle for the three library calls made by `executeQuery`:
`prepareQuery` fills `queryResult.queryID`, `executeQuery` may update it
(it receives the current one), `completeQuery` takes the `QueryID` by
value.  `.error m` means the call threw a `std::exception` whose `what()`
is `m`. -/
structure SciDBBehavior where
  prepareRes : Except (List Char) LibQueryID
  executeRes : LibQueryID → Except (List Char) LibQueryID
  completeRes : LibQueryID → Except (List Char) Unit

/-- Observable result of `executeQuery`: the returned id, the `err`
buffer, and the trace of `SciDBClient` query-lifecycle calls made. -/
structure ExecOutcome where
  id : Nat
  err : Option (List Char)
  trace : List LibCall

/-- `executeQuery` (client.cpp lines 124-141): prepare, execute, complete
inside one try block; on any exception, write `e.what()` to `err` and
return the initial `id = 0`. -/
def executeQuery (db : SciDBBehavior) (con : Ptr) (query : List Char)
    (afl : Bool) : ExecOutcome :=
  match db.prepareRes with
  | .error e =>
      { id := 0, err := some (snprintfErr e),
        trace := [.prepareQuery query afl con] }
  | .ok q1 =>
    match db.executeRes q1 with
    | .error e =>
        { id := 0, err := some (snprintfErr e),
          trace := [.prepareQuery query afl con,
                    .executeQuery query afl con] }
    | .ok q2 =>
      match db.completeRes q2 with
      | .error e =>
          { id := 0, err := some (snprintfErr e),
            trace := [.prepareQuery query afl con,
                      .executeQuery query afl con,
                      .completeQuery q2 con] }
      | .ok _ =>
          { id := q2.id, err := none,
            trace := [.prepareQuery query afl con,
                      .executeQuery query afl con,
                      .completeQuery q2 con] }

/-- Whether none of the three library calls made by `executeQuery` throws
(execution and completion examined on the query id actually reached). -/
def allOk (db : SciDBBehavior) : Bool :=
  match db.prepareRes with
  | .error _ => false
  | .ok q1 =>
    match db.executeRes q1 with
    | .error _ => false
    | .ok q2 =>
      match db.completeRes q2 with
      | .error _ => false
      | .ok _ => true

/-- The query id returned on a fully successful run is nonzero (a valid
SciDB query id).  Stated as a boolean side condition on the oracle. -/
def successIdNonzero (db : SciDBBehavior) : Bool :=
  match db.prepareRes with
  | .error _ => true
  | .ok q1 =>
    match db.executeRes q1 with
    | .error _ => true
    | .ok q2 =>
      match db.completeRes q2 with
      | .error _ => true
      | .ok _ => q2.id != 0

/-- The sequence of `SciDBClient` query-lifecycle calls `executeQuery`
makes: `prepareQuery` always, `executeQuery` only if preparation returned
normally, `completeQuery` only if both did — i.e. the run stops at the
first throwing call, with no retry. -/
def libCallsMade (db : SciDBBehavior) (con : Ptr) (query : List Char)
    (afl : Bool) : List LibCall :=
  .prepareQuery query afl con ::
    match db.prepareRes with
    | .error _ => []
    | .ok q1 =>
      .executeQuery query afl con ::
        match db.executeRes q1 with
        | .error _ => []
        | .ok q2 => [.completeQuery q2 con]

/-! ### prepare_query -/

/-- Observable result of `prepare_query`: the `struct prep` pointed to by
`result` after the call, the `err` buffer, and the pointers the function
`delete`d. -/
structure PrepareOutcome where
  p : Prep
  err : Option (List Char)
  freed : List Ptr
deriving DecidableEq, Repr

/-- `prepare_query` (client.cpp lines 153-180).  `fresh` is the address
returned by `new scidb::QueryResult()` (ISO C++ non-nothrow `new` never
yields a null pointer, but the code's dead `if(!q)` check is embedded
faithfully).  `prepRes` is the outcome of `db.prepareQuery`, whose success
value is the `queryID` stored into `*q`.  `p0` is the caller's `struct
prep` before the call. -/
def prepare_query (prepRes : Except (List Char) LibQueryID) (fresh : Ptr)
    (p0 : Prep) : PrepareOutcome :=
  if fresh = NULL then
    { p := p0,
      err := some (snprintfErr ("Unable to allocate query result\n").data),
      freed := [] }
  else
    match prepRes with
    | .ok qid =>
        { p := { queryid := { coordinatorid := qid.coordId,
                              queryid := qid.id },
                 queryresult := fresh },
          err := none, freed := [] }
    | .error e =>
        { p := { p0 with queryresult := NULL },
          err := some (snprintfErr e), freed := [fresh] }

/-! ### execute_prepared_query -/

/-- Outcome of `db.executeQuery` inside `execute_prepared_query`: normal
return, a thrown `scidb::RollbackException`, or another thrown
`std::exception`. -/
inductive ExecLibOutcome where
  | ok
  | rollback
  | raises (msg : List Char)
deriving DecidableEq, Repr

/-- Observable result of `execute_prepared_query`: the returned
`ShimQueryID`, the `struct prep` after the call, the `err` buffer, the
pointers freed, and whether the `"Invalid query result object."` branch
executed. -/
structure EPQOutcome where
  qid : ShimQueryID
  pq : Prep
  err : Option (List Char)
  freed : List Ptr
  invalidBranch : Bool
deriving DecidableEq, Repr

/-- `execute_prepared_query` (client.cpp lines 190-227).  The function
first assigns `q->fetch`, dereferencing `pq->queryresult`; on a NULL
pointer this is undefined behaviour, modelled as `none`.  Only then does
the code test `if(!q)` — that branch is embedded as written, after the
dereference. -/
def execute_prepared_query (execRes : ExecLibOutcome) (pq : Prep) :
    Option EPQOutcome :=
  let q := pq.queryresult
  if q = NULL then
    none
  else
    if q = NULL then
      some { qid := { coordinatorid := 0, queryid := 0 }, pq := pq,
             err := some (snprintfErr ("Invalid query result object.\n").data),
             freed := [], invalidBranch := true }
    else
      match execRes with
      | .ok =>
          some { qid := pq.queryid, pq := pq, err := none, freed := [],
                 invalidBranch := false }
      | .rollback =>
          some { qid := pq.queryid,
                 pq := { pq with queryresult := NULL },
                 err := none, freed := [q], invalidBranch := false }
      | .raises e =>
          some { qid := { coordinatorid := 0, queryid := 0 },
                 pq := { pq with queryresult := NULL },
                 err := some (snprintfErr e), freed := [q],
                 invalidBranch := false }

/-! ### completeQuery -/

/-- State of the library `QueryResult` object pointed to by
`pq->queryresult`, as read by `completeQuery`: `qr->queryID.isValid()` and
`qr->autoCommit`. -/
structure QueryResultState where
  valid : Bool
  autoCommit : Bool
deriving DecidableEq, Repr

/-- Observable result of `completeQuery`: the `struct prep` after the
call, the `err` buffer, and the pointers freed. -/
structure CompleteOutcome where
  pq : Prep
  err : Option (List Char)
  freed : List Ptr
deriving DecidableEq, Repr

/-- `completeQuery` (client.cpp lines 245-259) together with
`completeQueryInternal` (lines 233-243).  `qrs` is the state of
`*(pq->queryresult)`; `completeRes` is the outcome of `db.completeQuery`.
Dereferencing a NULL `pq->queryresult` is undefined behaviour (`none`). -/
def completeQuery (qrs : QueryResultState)
    (completeRes : Except (List Char) Unit) (pq : Prep) :
    Option CompleteOutcome :=
  let qr := pq.queryresult
  if qr = NULL then
    none
  else
    if !qrs.valid || qrs.autoCommit then
      some { pq := { pq with queryresult := NULL }, err := none,
             freed := [qr] }
    else
      match completeRes with
      | .ok _ =>
          some { pq := { pq with queryresult := NULL }, err := none,
                 freed := [qr] }
      | .error e =>
          some { pq := { pq with queryresult := NULL },
                 err := some (snprintfErr e), freed := [qr] }

/-! ### Sample values used to instantiate hypotheses -/

/-- A library behaviour in which all three calls return normally and the
query id is (coordinator 1, id 5). -/
def dbOkSample : SciDBBehavior :=
  { prepareRes := .ok { coordId := 1, id := 5 },
    executeRes := fun _ => .ok { coordId := 1, id := 5 },
    completeRes := fun _ => .ok () }

/-- A prepared-query struct with a non-NULL query result pointer. -/
def pqSample : Prep :=
  { queryid := { coordinatorid := 3, queryid := 6 }, queryresult := 2 }

/-- An arbitrary initial `struct prep` value. -/
def p0Sample : Prep :=
  { queryid := { coordinatorid := 0, queryid := 0 }, queryresult := 0 }

/-! ## Claims -/

/-- C1 counterexample: the claim asserts the five named status codes are
pairwise distinct, but `SHIM_ERROR_AUTHENTICATION` and
`SHIM_PREPARATION_ERROR` are both `-2` in `src/src/client.h`. -/
theorem shim_status_auth_eq_preparation :
    SHIM_ERROR_AUTHENTICATION = SHIM_PREPARATION_ERROR ∧
    SHIM_ERROR_AUTHENTICATION = -2 := by decide

/-- C1 (amended): the five status codes named by the spec are all negative
integers and are pairwise distinct except that
`SHIM_ERROR_AUTHENTICATION` and `SHIM_PREPARATION_ERROR` share the value
`-2` (they belong to different functions' return-code groups). -/
theorem shim_status_codes_table :
    SHIM_ERROR_AUTHENTICATION < 0 ∧ SHIM_ERROR_CANT_CONNECT < 0 ∧
    SHIM_PREPARATION_ERROR < 0 ∧ SHIM_EXECUTION_ERROR < 0 ∧
    SHIM_TRANSACTION_ROLLBACK < 0 ∧
    SHIM_ERROR_AUTHENTICATION = SHIM_PREPARATION_ERROR ∧
    SHIM_ERROR_AUTHENTICATION ≠ SHIM_ERROR_CANT_CONNECT ∧
    SHIM_ERROR_AUTHENTICATION ≠ SHIM_EXECUTION_ERROR ∧
    SHIM_ERROR_AUTHENTICATION ≠ SHIM_TRANSACTION_ROLLBACK ∧
    SHIM_ERROR_CANT_CONNECT ≠ SHIM_PREPARATION_ERROR ∧
    SHIM_ERROR_CANT_CONNECT ≠ SHIM_EXECUTION_ERROR ∧
    SHIM_ERROR_CANT_CONNECT ≠ SHIM_TRANSACTION_ROLLBACK ∧
    SHIM_PREPARATION_ERROR ≠ SHIM_EXECUTION_ERROR ∧
    SHIM_PREPARATION_ERROR ≠ SHIM_TRANSACTION_ROLLBACK ∧
    SHIM_EXECUTION_ERROR ≠ SHIM_TRANSACTION_ROLLBACK := by decide

/-- C2: `scidbconnect` stores `SHIM_CONNECTION_SUCCESSFUL` and returns the
library's (non-NULL) handle on success, `SHIM_ERROR_AUTHENTICATION` and
NULL on a `scidb::Exception` with long error code
`SCIDB_LE_AUTHENTICATION_ERROR`, `SHIM_ERROR_CANT_CONNECT` and NULL on any
other exception; the returned pointer is NULL iff the stored status is
negative. -/
theorem scidbconnect_status_spec (c : Ptr) (code : Nat) (m m2 : List Char)
    (hc : c ≠ NULL) :
    scidbconnect (.ok c) = (c, SHIM_CONNECTION_SUCCESSFUL) ∧
    scidbconnect (.scidbExc code m) =
      (NULL, if code = SCIDB_LE_AUTHENTICATION_ERROR then
               SHIM_ERROR_AUTHENTICATION else SHIM_ERROR_CANT_CONNECT) ∧
    scidbconnect (.stdExc m2) = (NULL, SHIM_ERROR_CANT_CONNECT) ∧
    ((scidbconnect (.ok c)).1 = NULL ↔ (scidbconnect (.ok c)).2 < 0) ∧
    ((scidbconnect (.scidbExc code m)).1 = NULL ↔
      (scidbconnect (.scidbExc code m)).2 < 0) ∧
    ((scidbconnect (.stdExc m2)).1 = NULL ↔
      (scidbconnect (.stdExc m2)).2 < 0) := by
  refine ⟨rfl, ?_, rfl, ?_, ?_, ?_⟩
  · by_cases h : code = SCIDB_LE_AUTHENTICATION_ERROR <;>
      simp [scidbconnect, h]
  · simp [scidbconnect, SHIM_CONNECTION_SUCCESSFUL, hc]
  · by_cases h : code = SCIDB_LE_AUTHENTICATION_ERROR <;>
      norm_num [scidbconnect, h, SHIM_ERROR_AUTHENTICATION,
                SHIM_ERROR_CANT_CONNECT, NULL]
  · norm_num [scidbconnect, SHIM_ERROR_CANT_CONNECT, NULL]

/-- C2 witness: the success clause at connection handle 1. -/
theorem scidbconnect_status_spec_witness :
    (1 : Ptr) ≠ NULL ∧
    scidbconnect (.ok 1) = (1, SHIM_CONNECTION_SUCCESSFUL) :=
  ⟨by decide, (scidbconnect_status_spec 1 1008 [] [] (by decide)).1⟩

/-- C3 counterexample: on a `RollbackException`, `execute_prepared_query`
does not report any negative status code — its return type is a pair of
unsigned integers and its only other channel is `err`.  Concretely, with
prepared id (coordinator 7, query 5) and a non-NULL query result, it
returns the prepared query id exactly as a successful execution would,
leaves `err` untouched, and merely frees the query result and NULLs
`pq->queryresult`. -/
theorem execute_prepared_rollback_reports_qid :
    execute_prepared_query .rollback
        { queryid := { coordinatorid := 7, queryid := 5 },
          queryresult := 3 } =
      some { qid := { coordinatorid := 7, queryid := 5 },
             pq := { queryid := { coordinatorid := 7, queryid := 5 },
                     queryresult := 0 },
             err := none, freed := [3], invalidBranch := false } := by decide

/-- C3 (amended): the status-code table's `SHIM_TRANSACTION_ROLLBACK`
(-3) is a negative integer distinct from the authentication, connection,
preparation and execution failure codes, but `execute_prepared_query` in
`client.cpp` never produces it: a successful rollback is reported by
returning the prepared query's id (as on success) while deleting the
query result, setting `pq->queryresult` to NULL and leaving `err`
unwritten. -/
theorem execute_prepared_rollback_spec (pq : Prep)
    (hq : pq.queryresult ≠ NULL) :
    execute_prepared_query .rollback pq =
      some { qid := pq.queryid, pq := { pq with queryresult := NULL },
             err := none, freed := [pq.queryresult],
             invalidBranch := false } ∧
    SHIM_TRANSACTION_ROLLBACK < 0 ∧
    SHIM_TRANSACTION_ROLLBACK ≠ SHIM_ERROR_AUTHENTICATION ∧
    SHIM_TRANSACTION_ROLLBACK ≠ SHIM_ERROR_CANT_CONNECT ∧
    SHIM_TRANSACTION_ROLLBACK ≠ SHIM_PREPARATION_ERROR ∧
    SHIM_TRANSACTION_ROLLBACK ≠ SHIM_EXECUTION_ERROR := by
  refine ⟨?_, by decide, by decide, by decide, by decide, by decide⟩
  simp [execute_prepared_query, hq]

/-- C3 witness: the amended rollback behaviour at a concrete prep
struct. -/
theorem execute_prepared_rollback_spec_witness :
    ({ queryid := { coordinatorid := 2, queryid := 9 },
       queryresult := 4 } : Prep).queryresult ≠ NULL ∧
    execute_prepared_query .rollback
        { queryid := { coordinatorid := 2, queryid := 9 },
          queryresult := 4 } =
      some { qid := { coordinatorid := 2, queryid := 9 },
             pq := { queryid := { coordinatorid := 2, queryid := 9 },
                     queryresult := NULL },
             err := none, freed := [4], invalidBranch := false } :=
  ⟨by decide,
   (execute_prepared_rollback_spec
      { queryid := { coordinatorid := 2, queryid := 9 },
        queryresult := 4 } (by decide)).1⟩

/-- C9: `execute_prepared_query` dereferences `pq->queryresult` (to set
the fetch flag) before testing it for NULL, so its behaviour is defined
exactly when `pq->queryresult` is non-NULL, and the
`"Invalid query result object."` branch never executes in any defined
run. -/
theorem execute_prepared_null_deref_spec (execRes : ExecLibOutcome)
    (pq : Prep) :
    (execute_prepared_query execRes pq = none ↔
      pq.queryresult = NULL) ∧
    (execute_prepared_query execRes pq).elim True
      (fun o => o.invalidBranch = false) := by
  by_cases h : pq.queryresult = NULL
  · simp [execute_prepared_query, h]
  · cases execRes <;> simp [execute_prepared_query, h]

/-- C4: whenever `executeQuery`, `prepare_query`,
`execute_prepared_query` or `completeQuery` catches an exception, the
exception text is stored in the caller-supplied `err` buffer by
`snprintf(err, MAX_VARLEN, "%s", ...)`, so at most `MAX_VARLEN` (4096)
bytes including the terminating NUL are written. -/
theorem err_buffer_truncation_spec
    (m : List Char) (qid : LibQueryID)
    (exeR : LibQueryID → Except (List Char) LibQueryID)
    (cmpR : LibQueryID → Except (List Char) Unit)
    (con fresh : Ptr) (query : List Char) (afl : Bool) (p0 pq : Prep)
    (hf : fresh ≠ NULL) (hq : pq.queryresult ≠ NULL) :
    (snprintfErr m).length + 1 ≤ MAX_VARLEN ∧
    (executeQuery
        { prepareRes := .error m, executeRes := exeR, completeRes := cmpR }
        con query afl).err = some (snprintfErr m) ∧
    (executeQuery
        { prepareRes := .ok qid, executeRes := fun _ => .error m,
          completeRes := cmpR }
        con query afl).err = some (snprintfErr m) ∧
    (executeQuery
        { prepareRes := .ok qid, executeRes := fun x => .ok x,
          completeRes := fun _ => .error m }
        con query afl).err = some (snprintfErr m) ∧
    (prepare_query (.error m) fresh p0).err = some (snprintfErr m) ∧
    (execute_prepared_query (.raises m) pq).map (fun o => o.err) =
      some (some (snprintfErr m)) ∧
    (completeQuery { valid := true, autoCommit := false } (.error m)
        pq).map (fun o => o.err) = some (some (snprintfErr m)) := by
  refine ⟨?_, rfl, rfl, rfl, ?_, ?_, ?_⟩
  · simp only [snprintfErr, MAX_VARLEN, List.length_take]
    omega
  · simp [prepare_query, hf]
  · simp [execute_prepared_query, hq]
  · simp [completeQuery, hq]

/-- C4 witness: the truncation bound at the message "boom", with a
non-NULL allocation and a non-NULL query result. -/
theorem err_buffer_truncation_spec_witness :
    (1 : Ptr) ≠ NULL ∧ pqSample.queryresult ≠ NULL ∧
    (snprintfErr ("boom").data).length + 1 ≤ MAX_VARLEN :=
  ⟨by decide, by decide,
   (err_buffer_truncation_spec ("boom").data { coordId := 0, id := 0 }
      (fun x => .ok x) (fun _ => .ok ()) 2 1 ['q'] true p0Sample pqSample
      (by decide) (by decide)).1⟩

/-- C5: a fully successful `executeQuery` run performs exactly
`prepareQuery`, then `executeQuery`, then `completeQuery`, on the same
connection and query string, and returns the id of the library query
result's `queryID`. -/
theorem executeQuery_success_call_sequence (db : SciDBBehavior) (con : Ptr)
    (query : List Char) (afl : Bool) (q1 q2 : LibQueryID)
    (hp : db.prepareRes = .ok q1) (he : db.executeRes q1 = .ok q2)
    (hc : db.completeRes q2 = .ok ()) :
    executeQuery db con query afl =
      { id := q2.id, err := none,
        trace := [.prepareQuery query afl con,
                  .executeQuery query afl con,
                  .completeQuery q2 con] } := by
  simp [executeQuery, hp, he, hc]

/-- C5 witness: the successful call sequence on a concrete all-ok
library behaviour. -/
theorem executeQuery_success_call_sequence_witness :
    dbOkSample.prepareRes = .ok { coordId := 1, id := 5 } ∧
    dbOkSample.executeRes { coordId := 1, id := 5 } =
      .ok { coordId := 1, id := 5 } ∧
    dbOkSample.completeRes { coordId := 1, id := 5 } = .ok () ∧
    executeQuery dbOkSample 2 ['q'] true =
      { id := 5, err := none,
        trace := [.prepareQuery ['q'] true 2, .executeQuery ['q'] true 2,
                  .completeQuery { coordId := 1, id := 5 } 2] } :=
  ⟨rfl, rfl, rfl,
   executeQuery_success_call_sequence dbOkSample 2 ['q'] true
     { coordId := 1, id := 5 } { coordId := 1, id := 5 } rfl rfl rfl⟩

/-- C6: `executeQuery` returns 0 exactly when one of the three library
calls throws (given that a fully successful run yields a nonzero query
id); on failure the `err` buffer is written, and the calls made stop at
the throwing one with no retry (`libCallsMade` lists `prepareQuery`
always, `executeQuery` only after preparation returned, `completeQuery`
only after both returned). -/
theorem executeQuery_zero_iff_failure (db : SciDBBehavior) (con : Ptr)
    (query : List Char) (afl : Bool)
    (hid : successIdNonzero db = true) :
    ((executeQuery db con query afl).id = 0 ↔ allOk db = false) ∧
    (executeQuery db con query afl).err.isSome = !allOk db ∧
    (executeQuery db con query afl).trace =
      libCallsMade db con query afl := by
  rcases h1 : db.prepareRes with e | q1
  · simp [executeQuery, allOk, libCallsMade, h1]
  · rcases h2 : db.executeRes q1 with e | q2
    · simp [executeQuery, allOk, libCallsMade, h1, h2]
    · rcases h3 : db.completeRes q2 with e | u
      · simp [executeQuery, allOk, libCallsMade, h1, h2, h3]
      · have hnz : q2.id ≠ 0 := by
          simpa [successIdNonzero, h1, h2, h3] using hid
        simp [executeQuery, allOk, libCallsMade, h1, h2, h3, hnz]

/-- C6 witness: the zero-iff-failure equivalence on a concrete all-ok
library behaviour. -/
theorem executeQuery_zero_iff_failure_witness :
    successIdNonzero dbOkSample = true ∧
    ((executeQuery dbOkSample 2 ['q'] true).id = 0 ↔
      allOk dbOkSample = false) :=
  ⟨rfl, (executeQuery_zero_iff_failure dbOkSample 2 ['q'] true rfl).1⟩

/-- C7: per-query `QueryResult` lifecycle — `prepare_query` frees its
allocation exactly once and NULLs the stored pointer on its exception
path (and keeps it, not freed, on success); `execute_prepared_query`
frees it exactly once and NULLs `pq->queryresult` on both the rollback
and the failure path (and keeps it on success); `completeQuery` frees it
exactly once and NULLs `pq->queryresult` on every defined path. -/
theorem queryresult_lifecycle_spec
    (prepErr : List Char) (qid : LibQueryID) (fresh : Ptr) (p0 pq : Prep)
    (execMsg : List Char) (qrs : QueryResultState)
    (cmplRes : Except (List Char) Unit)
    (hf : fresh ≠ NULL) (hq : pq.queryresult ≠ NULL) :
    (prepare_query (.error prepErr) fresh p0).freed = [fresh] ∧
    (prepare_query (.error prepErr) fresh p0).p.queryresult = NULL ∧
    (prepare_query (.ok qid) fresh p0).freed = [] ∧
    (prepare_query (.ok qid) fresh p0).p.queryresult = fresh ∧
    execute_prepared_query .rollback pq =
      some { qid := pq.queryid, pq := { pq with queryresult := NULL },
             err := none, freed := [pq.queryresult],
             invalidBranch := false } ∧
    execute_prepared_query (.raises execMsg) pq =
      some { qid := { coordinatorid := 0, queryid := 0 },
             pq := { pq with queryresult := NULL },
             err := some (snprintfErr execMsg),
             freed := [pq.queryresult], invalidBranch := false } ∧
    (execute_prepared_query .ok pq).map
      (fun o => (o.freed, o.pq.queryresult)) =
        some ([], pq.queryresult) ∧
    (completeQuery qrs cmplRes pq).map
      (fun o => (o.freed, o.pq.queryresult)) =
        some ([pq.queryresult], NULL) := by
  refine ⟨?_, ?_, ?_, ?_, ?_, ?_, ?_, ?_⟩
  · simp [prepare_query, hf]
  · simp [prepare_query, hf]
  · simp [prepare_query, hf]
  · simp [prepare_query, hf]
  · simp [execute_prepared_query, hq]
  · simp [execute_prepared_query, hq]
  · simp [execute_prepared_query, hq]
  · rcases cmplRes with e | u <;>
      by_cases hv : (!qrs.valid || qrs.autoCommit) = true <;>
        simp [completeQuery, hq, hv]

/-- C7 witness: the exception path of `prepare_query` frees its
allocation, at concrete inputs. -/
theorem queryresult_lifecycle_spec_witness :
    (1 : Ptr) ≠ NULL ∧ pqSample.queryresult ≠ NULL ∧
    (prepare_query (.error ['x']) 1 p0Sample).freed = [1] :=
  ⟨by decide, by decide,
   (queryresult_lifecycle_spec ['x'] { coordId := 0, id := 0 } 1 p0Sample
      pqSample ['y'] { valid := true, autoCommit := false } (.ok ())
      (by decide) (by decide)).1⟩

/-- C8: on return from `prepare_query` (with the allocator's non-NULL
address `fresh`), exactly one of two outcomes holds: either
`p->queryresult` is the freshly allocated non-NULL pointer, the query id
fields are filled from the library's query id, and `err` is untouched;
or `p->queryresult` is NULL and an error message was written to `err`. -/
theorem prepare_query_dichotomy (prepRes : Except (List Char) LibQueryID)
    (fresh : Ptr) (p0 : Prep) (hf : fresh ≠ NULL) :
    Xor'
      ((prepare_query prepRes fresh p0).p.queryresult = fresh ∧
       fresh ≠ NULL ∧
       (∃ qid, prepRes = .ok qid ∧
         (prepare_query prepRes fresh p0).p.queryid =
           { coordinatorid := qid.coordId, queryid := qid.id }) ∧
       (prepare_query prepRes fresh p0).err = none)
      ((prepare_query prepRes fresh p0).p.queryresult = NULL ∧
       (prepare_query prepRes fresh p0).err.isSome = true) := by
  rcases prepRes with e | qid
  · right
    constructor
    · simp [prepare_query, hf]
    · simp [prepare_query, hf]
  · left
    constructor
    · exact ⟨by simp [prepare_query, hf], hf,
             ⟨qid, rfl, by simp [prepare_query, hf]⟩,
             by simp [prepare_query, hf]⟩
    · simp [prepare_query, hf]

/-- C8 witness: the dichotomy at a concrete successful preparation. -/
theorem prepare_query_dichotomy_witness :
    (1 : Ptr) ≠ NULL ∧
    Xor'
      ((prepare_query (.ok { coordId := 4, id := 8 }) 1
          p0Sample).p.queryresult = 1 ∧
       (1 : Ptr) ≠ NULL ∧
       (∃ qid, (.ok { coordId := 4, id := 8 } :
                  Except (List Char) LibQueryID) = .ok qid ∧
         (prepare_query (.ok { coordId := 4, id := 8 }) 1
            p0Sample).p.queryid =
           { coordinatorid := qid.coordId, queryid := qid.id }) ∧
       (prepare_query (.ok { coordId := 4, id := 8 }) 1
          p0Sample).err = none)
      ((prepare_query (.ok { coordId := 4, id := 8 }) 1
          p0Sample).p.queryresult = NULL ∧
       (prepare_query (.ok { coordId := 4, id := 8 }) 1
          p0Sample).err.isSome = true) :=
  ⟨by decide,
   prepare_query_dichotomy (.ok { coordId := 4, id := 8 }) 1 p0Sample
     (by decide)⟩

/-- C10: `scidbdisconnect` catches any `std::exception` from the
library's disconnect call in an empty handler: it always returns normally
and reports nothing. -/
theorem scidbdisconnect_swallows_exceptions (res : DisconnectOutcome) :
    (scidbdisconnect res).returnedNormally = true ∧
    (scidbdisconnect res).reported = none := by
  cases res <;> exact ⟨rfl, rfl⟩

end Shim
